import Mathlib

/-!
Verification of the Stats Synchronizer of NekoPartnerMediaPlayer
(src/index.js, src/models/Song.js) against its design specification.

The embedding models the periodic background synchronization job:
`fetchYouTubeStats` (src/index.js lines 45-62), the per-song loop body and
the tick `updateAllStatsInBackground` (lines 65-83), the durable store as a
list of Song rows (src/models/Song.js), and the Redis cache as a list of
keyed entries with absolute expiry times.  Wall-clock time is a `Nat`
counting milliseconds; awaiting the extractor advances it by the response
delay, `sleep(COOLDOWN_MS)` advances it by `COOLDOWN_MS`.
-/

namespace NekoSync

/-- The stats object built by `fetchYouTubeStats`: `{views, likes}`, both
already coerced to strings by the code. -/
structure Stats where
  views : String
  likes : String
deriving Repr, DecidableEq

/-- The sentinel string the code substitutes for a missing field or a failed
fetch (`'N/A'` in src/index.js lines 55, 56, 60). -/
def sentinel : String := "N/A"

/-- The sentinel stats object returned by the catch branch of
`fetchYouTubeStats` (src/index.js line 60). -/
def sentinelStats : Stats := ⟨sentinel, sentinel⟩

/-- The metadata payload of a successful extractor run: the `view_count` and
`like_count` fields of the dumped JSON, each possibly absent (or null). -/
structure Metadata where
  view_count : Option Nat
  like_count : Option Nat
deriving Repr, DecidableEq

/-- Behaviour of one invocation of the external extractor (youtube-dl-exec):
it may respond with metadata after `d` milliseconds, error out after `d`
milliseconds, or never respond at all. -/
inductive ExtractorOutcome where
  | success (d : Nat) (m : Metadata)
  | failure (d : Nat)
  | hang
deriving Repr, DecidableEq

/-- JavaScript optional chaining plus `.toString()` on a numeric field:
`data.view_count?.toString()` yields the decimal string when the field is
present and `undefined` when it is absent or null. -/
def jsToStringOpt (v : Option Nat) : Option String :=
  v.map Nat.repr

/-- JavaScript `x || dflt` on an optional string: `undefined` and the empty
string are falsy, every other string is truthy. -/
def jsOrDefault (v : Option String) (dflt : String) : String :=
  match v with
  | some s => if s = "" then dflt else s
  | none => dflt

/-- The success branch of `fetchYouTubeStats` (src/index.js lines 54-57):
`views: data.view_count?.toString() || 'N/A'` and likewise for likes. -/
def fetchedStats (m : Metadata) : Stats :=
  { views := jsOrDefault (jsToStringOpt m.view_count) sentinel,
    likes := jsOrDefault (jsToStringOpt m.like_count) sentinel }

/-- Embedding of `fetchYouTubeStats` (src/index.js lines 45-62).  The result
is `some (d, stats)` when the awaited extractor call resolves after `d`
milliseconds — with parsed stats on success and the sentinel object from the
catch branch on error — and `none` when the extractor never responds, since
the code passes no timeout option and the await then never resolves. -/
def fetchYouTubeStats (e : ExtractorOutcome) : Option (Nat × Stats) :=
  match e with
  | .success d m => some (d, fetchedStats m)
  | .failure d => some (d, sentinelStats)
  | .hang => none

/-- The option object passed to `youtubedl` by `fetchYouTubeStats`
(src/index.js lines 47-52), extended with the `timeout` field that
youtube-dl-exec (execa) accepts: the code does not set it, so it is `none`
and the subprocess is never killed on a deadline. -/
structure YtdlFlags where
  dumpSingleJson : Bool
  noCheckCertificates : Bool
  noWarnings : Bool
  preferFreeFormats : Bool
  timeout : Option Nat
deriving Repr, DecidableEq

/-- The literal flags at src/index.js lines 47-52. -/
def fetchYouTubeStatsFlags : YtdlFlags :=
  { dumpSingleJson := true
    noCheckCertificates := true
    noWarnings := true
    preferFreeFormats := true
    timeout := none }

/-- The coercion of one metric field as the specification words it: a present
field becomes its textual decimal representation, an absent one becomes the
sentinel. -/
def specCoerce (v : Option Nat) : String :=
  match v with
  | some n => Nat.repr n
  | none => sentinel

/-- One row of the durable `Songs` table (src/models/Song.js).  The schema
declares `views`/`likes` as integer columns with default 0, but the
synchronizer writes the string fields of its stats object into them
(src/index.js line 76), so the stored metric values are modelled as strings.
`updatedAt` is the Sequelize-managed last-updated timestamp in
milliseconds, refreshed automatically by `Song.update`. -/
structure SongRow where
  id : Nat
  Artist : String
  title : String
  cover : String
  youtubeid : String
  views : String
  likes : String
  playlistId : Nat
  updatedAt : Nat
deriving Repr, DecidableEq

/-- One Redis entry: key, stored stats value (the JSON-serialized object),
and the absolute expiry instant in milliseconds set via `'EX'`. -/
structure CacheEntry where
  key : String
  value : Stats
  expiresAt : Nat
deriving Repr, DecidableEq

/-- `redis.set(key, value, 'EX', ttlSec)` at time `now`: overwrite any entry
under the key and arm a fresh ttl of `ttlSec` seconds. -/
def redisSet (c : List CacheEntry) (k : String) (v : Stats) (ttlSec : Nat)
    (now : Nat) : List CacheEntry :=
  ⟨k, v, now + ttlSec * 1000⟩ :: c.filter (fun e => e.key ≠ k)

/-- Look up the current value stored under a key. -/
def cacheGet (c : List CacheEntry) (k : String) : Option Stats :=
  (c.find? (fun e => e.key == k)).map (fun e => e.value)

/-- Look up the expiry instant armed for a key. -/
def cacheExpiry (c : List CacheEntry) (k : String) : Option Nat :=
  (c.find? (fun e => e.key == k)).map (fun e => e.expiresAt)

/-- `Song.update({views, likes}, {where: {youtubeid: yid}})` at time `now`
(src/index.js line 76): every row matching the external-media identifier
gets the two metric fields overwritten and its `updatedAt` timestamp
refreshed by Sequelize; all other rows and all other fields are untouched. -/
def updateSongMetrics (store : List SongRow) (yid : String) (s : Stats)
    (now : Nat) : List SongRow :=
  store.map (fun r =>
    if r.youtubeid = yid then
      { r with views := s.views, likes := s.likes, updatedAt := now }
    else r)

/-- `COOLDOWN_MS = 30 * 1000` (src/index.js line 13). -/
def COOLDOWN_MS : Nat := 30 * 1000

/-- Per-song behaviour of the external world during a tick, looked up by the
song's `youtubeid`: what the extractor does, and whether the durable write
`Song.update` throws a storage error for this song. -/
structure SongEnv where
  extractor : ExtractorOutcome
  storageFails : Bool
deriving Repr, DecidableEq

/-- State threaded through a tick: the durable store, the Redis cache, the
wall clock in milliseconds and the console log. -/
structure SyncState where
  store : List SongRow
  cache : List CacheEntry
  clock : Nat
  log : List String
deriving Repr, DecidableEq

/-- Body of one iteration of the for-loop in `updateAllStatsInBackground`
(src/index.js lines 74-78): await the fetch (which never throws), write the
stats to Redis under `ytstats:<youtubeid>` with `'EX' 60`, then attempt the
durable write; a throwing `Song.update` escapes the loop with the state as
it stands (cache already written), otherwise log and sleep `COOLDOWN_MS`.
`none` means the un-timed-out extractor await never resolved. -/
def processSong (env : String → SongEnv) (song : SongRow) (st : SyncState) :
    Option (Except (SyncState × String) SyncState) :=
  match fetchYouTubeStats (env song.youtubeid).extractor with
  | none => none
  | some (d, stats) =>
    let c1 := st.clock + d
    let cache1 := redisSet st.cache ("ytstats:" ++ song.youtubeid) stats 60 c1
    if (env song.youtubeid).storageFails then
      some (.error ({ st with clock := c1, cache := cache1 }, "StorageError"))
    else
      some (.ok { st with
        clock := c1 + COOLDOWN_MS,
        cache := cache1,
        store := updateSongMetrics st.store song.youtubeid stats c1,
        log := st.log ++ ["Updated stats for " ++ song.youtubeid] })

/-- Result of running the tick body: normal completion, an exception that
escaped the per-song loop carrying the state at the throw point, or an
await that never resolves. -/
inductive TickResult where
  | ok (s : SyncState)
  | err (s : SyncState) (msg : String)
  | hang
deriving Repr, DecidableEq

/-- The sequential for-loop of `updateAllStatsInBackground` over the selected
songs (src/index.js lines 73-79). -/
def runLoop (env : String → SongEnv) : List SongRow → SyncState → TickResult
  | [], st => .ok st
  | song :: rest, st =>
    match processSong env song st with
    | none => .hang
    | some (.error (s, msg)) => .err s msg
    | some (.ok st1) => runLoop env rest st1

/-- The staleness cutoff computed at tick time:
`new Date(Date.now() - 10 * 60 * 1000)` (src/index.js line 67). -/
def staleCutoff (now : Nat) : Nat := now - 10 * 60 * 1000

/-- Semantics of the where-clause `{updatedAt: {[Op.lt]: cutoff}}` the code
builds (src/index.js lines 68-72): the rows strictly older than the
cutoff. -/
def listStaleSongs (store : List SongRow) (cutoff : Nat) : List SongRow :=
  store.filter (fun r => decide (r.updatedAt < cutoff))

/-- Identifiers bound at module scope of src/index.js: the destructured
requires (lines 2-11) and the top-level const/function declarations.  The
require of sequelize on line 5 destructures only `Sequelize` and
`DataTypes`. -/
def indexModuleScope : List String :=
  ["express", "session", "Redis", "Sequelize", "DataTypes", "youtubedl",
   "path", "bodyParser", "bcrypt", "Playlist", "Song", "User", "sequelize",
   "COOLDOWN_MS", "sleep", "app", "PORT", "redis", "fetchYouTubeStats",
   "updateAllStatsInBackground", "isAuthenticated"]

/-- JavaScript resolution of the bare identifier `Op` inside
`updateAllStatsInBackground` (src/index.js line 70): no enclosing scope
declares it, so evaluating the computed key `[Op.lt]` raises a
ReferenceError. -/
def resolveOp : Except String Unit :=
  if indexModuleScope.contains "Op" then .ok () else .error "Op is not defined"

/-- The selection step `Song.findAll({where: {updatedAt: {[Op.lt]: cutoff}}})`
(src/index.js lines 68-72): building the where-clause first evaluates the
identifier `Op`, so the step only returns the stale rows when `Op`
resolves. -/
def findStaleSongs (store : List SongRow) (cutoff : Nat) :
    Except String (List SongRow) :=
  match resolveOp with
  | .error e => .error e
  | .ok _ => .ok (listStaleSongs store cutoff)

/-- The try/catch wrapping the whole tick body (src/index.js lines 66-82):
any exception from the selection or from the loop is caught and logged and
the tick resolves normally; a hanging await is beyond its reach. -/
def catchTick : TickResult → TickResult
  | .ok s => .ok s
  | .err s e => .ok { s with log := s.log ++ ["Background stats update failed: " ++ e] }
  | .hang => .hang

/-- Embedding of `updateAllStatsInBackground` (src/index.js lines 65-83):
compute the cutoff, run the selection (which evaluates `Op`), loop over the
selected songs, with the outer try/catch around everything. -/
def updateAllStatsInBackground (env : String → SongEnv) (st : SyncState) :
    TickResult :=
  match findStaleSongs st.store (staleCutoff st.clock) with
  | .error e => catchTick (.err st e)
  | .ok songs => catchTick (runLoop env songs st)

/-- The selection a tick is meant to make at state `st`: the rows of the
durable store whose timestamp is strictly older than ten minutes before the
tick's clock.  This is the where-clause semantics of lines 67-72 with the
identifier `Op` resolved as intended; the unresolved-identifier defect
itself is treated separately. -/
def tickSelection (st : SyncState) : List SongRow :=
  listStaleSongs st.store (staleCutoff st.clock)

/-- The last song of a list that carries a given external-media identifier:
the one whose durable write wins for the rows matching that identifier when
the loop runs over the list. -/
def lastFetchFor (songs : List SongRow) (yid : String) : Option SongRow :=
  songs.reverse.find? (fun s => s.youtubeid == yid)

/-! Concrete sample data used to instantiate the theorems. -/

/-- A sample stale song row (compare the scenario of spec section 8). -/
def demoSong : SongRow :=
  { id := 1, Artist := "a", title := "t", cover := "c", youtubeid := "abc123",
    views := "100", likes := "10", playlistId := 1, updatedAt := 0 }

/-- A sample tick start state holding only `demoSong`, eleven-plus minutes
after the song was last updated. -/
def demoState : SyncState :=
  { store := [demoSong], cache := [], clock := 700000, log := [] }

/-- A sample environment: the extractor answers instantly with
`view_count: 150, like_count: 12` and the durable write succeeds. -/
def demoEnv : String → SongEnv :=
  fun _ => { extractor := .success 0 ⟨some 150, some 12⟩, storageFails := false }

/-- The state after one tick of `demoEnv` over `demoState`. -/
def demoFinal : SyncState :=
  { store := [{ demoSong with views := "150", likes := "12", updatedAt := 700000 }],
    cache := [⟨"ytstats:abc123", ⟨"150", "12"⟩, 760000⟩],
    clock := 730000,
    log := ["Updated stats for abc123"] }

/-- The state after running the loop over the same song a second time. -/
def demoFinal2 : SyncState :=
  { store := [{ demoSong with views := "150", likes := "12", updatedAt := 730000 }],
    cache := [⟨"ytstats:abc123", ⟨"150", "12"⟩, 790000⟩],
    clock := 760000,
    log := ["Updated stats for abc123", "Updated stats for abc123"] }

/-- A sample song whose extractor call fails. -/
def failSong : SongRow :=
  { id := 2, Artist := "b", title := "u", cover := "d", youtubeid := "xyz789",
    views := "0", likes := "0", playlistId := 1, updatedAt := 0 }

/-- An environment where every extractor call errors out immediately. -/
def failEnv : String → SongEnv :=
  fun _ => { extractor := .failure 0, storageFails := false }

/-- A tick start state holding only `failSong`. -/
def failState : SyncState :=
  { store := [failSong], cache := [], clock := 700000, log := [] }

/-- The state after processing `failSong` under `failEnv`. -/
def failFinal : SyncState :=
  { store := [{ failSong with views := sentinel, likes := sentinel, updatedAt := 700000 }],
    cache := [⟨"ytstats:xyz789", sentinelStats, 760000⟩],
    clock := 730000,
    log := ["Updated stats for xyz789"] }

/-- First of two sample songs for the storage-failure scenario. -/
def songA : SongRow :=
  { id := 1, Artist := "a", title := "t", cover := "c", youtubeid := "aaa",
    views := "0", likes := "0", playlistId := 1, updatedAt := 0 }

/-- Second of two sample songs for the storage-failure scenario. -/
def songB : SongRow :=
  { id := 2, Artist := "b", title := "u", cover := "d", youtubeid := "bbb",
    views := "0", likes := "0", playlistId := 1, updatedAt := 0 }

/-- An environment where the durable write throws for `songA` and succeeds
for every other song. -/
def c4Env : String → SongEnv := fun yid =>
  if yid = "aaa" then
    { extractor := .success 0 ⟨some 1, some 1⟩, storageFails := true }
  else
    { extractor := .success 0 ⟨some 2, some 2⟩, storageFails := false }

/-- A tick start state holding `songA` then `songB`. -/
def c4State : SyncState :=
  { store := [songA, songB], cache := [], clock := 700000, log := [] }

/-- The state carried by the exception after `songA`'s durable write throws:
`songA`'s cache entry was already written, nothing else changed, and `songB`
was never reached. -/
def c4Mid : SyncState :=
  { store := [songA, songB],
    cache := [⟨"ytstats:aaa", ⟨"1", "1"⟩, 760000⟩],
    clock := 700000,
    log := [] }

/-! Helper lemmas. -/

/-- Digit accumulation never shortens the accumulator. -/
theorem toDigitsCore_length_le (b : Nat) :
    ∀ (f n : Nat) (l : List Char), l.length ≤ (Nat.toDigitsCore b f n l).length := by
  intro f
  induction f with
  | zero => intro n l; simp [Nat.toDigitsCore]
  | succ f ih =>
    intro n l
    simp only [Nat.toDigitsCore]
    by_cases h : n / b = 0
    · simp [h]
    · simp only [if_neg h]
      exact le_trans (by simp) (ih (n / b) (Nat.digitChar (n % b) :: l))

/-- The digit list of a natural number is nonempty. -/
theorem toDigits_length_pos (b n : Nat) : 0 < (Nat.toDigits b n).length := by
  show 0 < (Nat.toDigitsCore b (n + 1) n []).length
  simp only [Nat.toDigitsCore]
  by_cases h : n / b = 0
  · simp [h]
  · simp only [if_neg h]
    exact lt_of_lt_of_le (by simp)
      (toDigitsCore_length_le b n (n / b) [Nat.digitChar (n % b)])

/-- The decimal rendering of a natural number is never the empty string, so
it is always truthy in JavaScript. -/
theorem natRepr_ne_empty (n : Nat) : Nat.repr n ≠ "" := by
  intro hcontra
  have hd : Nat.toDigits 10 n = [] := congrArg String.data hcontra
  have := toDigits_length_pos 10 n
  rw [hd] at this
  simp at this

/-- Unfolding of one loop iteration. -/
theorem runLoop_cons (env : String → SongEnv) (song : SongRow)
    (rest : List SongRow) (st : SyncState) :
    runLoop env (song :: rest) st =
      match processSong env song st with
      | none => .hang
      | some (.error (s, msg)) => .err s msg
      | some (.ok st1) => runLoop env rest st1 := rfl

/-- Inversion of a successful per-song step: the fetch resolved, the durable
write did not throw, and the new state is the old one with the cache entry,
the durable update, the log line and the cooldown applied. -/
theorem processSong_ok_inv (env : String → SongEnv) (song : SongRow)
    (st stN : SyncState) (h : processSong env song st = some (.ok stN)) :
    ∃ d stats,
      fetchYouTubeStats (env song.youtubeid).extractor = some (d, stats) ∧
      (env song.youtubeid).storageFails = false ∧
      stN = { st with
        clock := st.clock + d + COOLDOWN_MS,
        cache := redisSet st.cache ("ytstats:" ++ song.youtubeid) stats 60 (st.clock + d),
        store := updateSongMetrics st.store song.youtubeid stats (st.clock + d),
        log := st.log ++ ["Updated stats for " ++ song.youtubeid] } := by
  unfold processSong at h
  cases hf : fetchYouTubeStats (env song.youtubeid).extractor with
  | none => rw [hf] at h; simp at h
  | some p =>
    obtain ⟨d, stats⟩ := p
    rw [hf] at h
    by_cases hs : (env song.youtubeid).storageFails = true
    · simp [hs] at h
    · have hs2 : (env song.youtubeid).storageFails = false := by
        simpa using hs
      simp only [hs2, Bool.false_eq_true, if_false, Option.some.injEq,
        Except.ok.injEq] at h
      exact ⟨d, stats, rfl, hs2, h.symm⟩

/-- Inversion of a per-song step that escapes with an exception: the fetch
resolved, the durable write threw, and the carried state has the cache entry
written but the durable store and log untouched. -/
theorem processSong_error_inv (env : String → SongEnv) (song : SongRow)
    (st stE : SyncState) (msg : String)
    (h : processSong env song st = some (.error (stE, msg))) :
    msg = "StorageError" ∧
    (env song.youtubeid).storageFails = true ∧
    ∃ d stats,
      fetchYouTubeStats (env song.youtubeid).extractor = some (d, stats) ∧
      stE = { st with
        clock := st.clock + d,
        cache := redisSet st.cache ("ytstats:" ++ song.youtubeid) stats 60 (st.clock + d) } := by
  unfold processSong at h
  cases hf : fetchYouTubeStats (env song.youtubeid).extractor with
  | none => rw [hf] at h; simp at h
  | some p =>
    obtain ⟨d, stats⟩ := p
    rw [hf] at h
    by_cases hs : (env song.youtubeid).storageFails = true
    · simp only [hs, if_true, Option.some.injEq, Except.error.injEq,
        Prod.mk.injEq] at h
      exact ⟨h.2.symm, hs, d, stats, rfl, h.1.symm⟩
    · have hs2 : (env song.youtubeid).storageFails = false := by simpa using hs
      simp [hs2] at h

/-- A completed loop over a nonempty list decomposes into a successful first
step followed by the completed loop over the tail. -/
theorem runLoop_ok_step (env : String → SongEnv) (song : SongRow)
    (rest : List SongRow) (st st1 : SyncState)
    (h : runLoop env (song :: rest) st = .ok st1) :
    ∃ stMid, processSong env song st = some (.ok stMid) ∧
      runLoop env rest stMid = .ok st1 := by
  rw [runLoop_cons] at h
  cases hp : processSong env song st with
  | none => rw [hp] at h; simp at h
  | some r =>
    cases r with
    | error p => obtain ⟨s, m⟩ := p; rw [hp] at h; simp at h
    | ok stMid => rw [hp] at h; exact ⟨stMid, rfl, h⟩

/-- The most recent cache write for a key is the value read back for it. -/
theorem cacheGet_redisSet_self (c : List CacheEntry) (k : String) (v : Stats)
    (ttl now : Nat) :
    cacheGet (redisSet c k v ttl now) k = some v := by
  unfold cacheGet redisSet
  rw [List.find?_cons_of_pos _ (by simp)]
  rfl

/-- The most recent cache write for a key arms its expiry. -/
theorem cacheExpiry_redisSet_self (c : List CacheEntry) (k : String) (v : Stats)
    (ttl now : Nat) :
    cacheExpiry (redisSet c k v ttl now) k = some (now + ttl * 1000) := by
  unfold cacheExpiry redisSet
  rw [List.find?_cons_of_pos _ (by simp)]
  rfl

/-- `lastFetchFor` on the empty list. -/
theorem lastFetchFor_nil (yid : String) : lastFetchFor [] yid = none := rfl

/-- `lastFetchFor` on a cons: a hit in the tail wins, otherwise the head is
consulted. -/
theorem lastFetchFor_cons (song : SongRow) (rest : List SongRow) (yid : String) :
    lastFetchFor (song :: rest) yid =
      match lastFetchFor rest yid with
      | some s => some s
      | none => if song.youtubeid == yid then some song else none := by
  unfold lastFetchFor
  rw [List.reverse_cons, List.find?_append]
  cases h : rest.reverse.find? (fun s => s.youtubeid == yid) with
  | some s => rfl
  | none =>
    by_cases hy : song.youtubeid == yid
    · simp [List.find?, hy, Option.or]
    · have hy2 : (song.youtubeid == yid) = false := by simpa using hy
      simp [List.find?, hy2, Option.or]

/-- If no song of the list carries the identifier, `lastFetchFor` is empty. -/
theorem lastFetchFor_eq_none (songs : List SongRow) (yid : String)
    (h : ∀ song ∈ songs, song.youtubeid ≠ yid) :
    lastFetchFor songs yid = none := by
  unfold lastFetchFor
  rw [List.find?_eq_none]
  intro s hs
  simpa using h s (List.mem_reverse.mp hs)

/-- If some song of the list carries the identifier, `lastFetchFor` hits. -/
theorem lastFetchFor_isSome (songs : List SongRow) (yid : String)
    (song : SongRow) (hmem : song ∈ songs) (hyid : song.youtubeid = yid) :
    ∃ s, lastFetchFor songs yid = some s := by
  cases h : lastFetchFor songs yid with
  | some s => exact ⟨s, rfl⟩
  | none =>
    unfold lastFetchFor at h
    rw [List.find?_eq_none] at h
    exact absurd (by simpa using hyid)
      (h song (List.mem_reverse.mpr hmem))

/-- A durable write never changes the number of rows. -/
theorem updateSongMetrics_length (store : List SongRow) (yid : String)
    (s : Stats) (now : Nat) :
    (updateSongMetrics store yid s now).length = store.length := by
  unfold updateSongMetrics
  exact List.length_map _ _

/-- Pointwise effect of a durable write: the row at a position is overwritten
in its metric fields and timestamp when its identifier matches, and is kept
as is otherwise. -/
theorem updateSongMetrics_getElem (store : List SongRow) (yid : String)
    (s : Stats) (now : Nat) (i : Nat) (hi : i < store.length)
    (hi2 : i < (updateSongMetrics store yid s now).length) :
    (updateSongMetrics store yid s now)[i] =
      if store[i].youtubeid = yid then
        { store[i] with views := s.views, likes := s.likes, updatedAt := now }
      else store[i] := by
  simp only [updateSongMetrics] at hi2 ⊢
  rw [List.getElem_map]

/-- A completed loop advances the clock by at least one cooldown per song
processed: the `sleep(COOLDOWN_MS)` is part of every iteration, the last one
included. -/
theorem runLoop_ok_clock (env : String → SongEnv) :
    ∀ (songs : List SongRow) (st st1 : SyncState),
      runLoop env songs st = .ok st1 →
      st.clock + songs.length * COOLDOWN_MS ≤ st1.clock := by
  intro songs
  induction songs with
  | nil =>
    intro st st1 h
    simp only [runLoop, TickResult.ok.injEq] at h
    subst h
    simp
  | cons song rest ih =>
    intro st st1 h
    obtain ⟨stMid, hp, hrest⟩ := runLoop_ok_step env song rest st st1 h
    obtain ⟨d, stats, hf, hsf, hMid⟩ := processSong_ok_inv env song st stMid hp
    have hclock := ih stMid st1 hrest
    rw [hMid] at hclock
    simp only [List.length_cons, COOLDOWN_MS] at hclock ⊢
    omega

/-- Row-level summary of a completed loop: the clock moves forward, the store
keeps its shape, non-metric fields of every row survive untouched, rows whose
identifier is fetched by no song of the list survive verbatim, and rows whose
identifier is fetched have their metric fields equal to the stats of the last
fetch for that identifier and a timestamp no older than the loop's start. -/
theorem runLoop_ok_rows (env : String → SongEnv) :
    ∀ (songs : List SongRow) (st st1 : SyncState),
      runLoop env songs st = .ok st1 →
      st.clock ≤ st1.clock ∧
      st1.store.length = st.store.length ∧
      ∀ (i : Nat) (hi : i < st.store.length) (hi1 : i < st1.store.length),
        (st1.store[i].id = st.store[i].id ∧
         st1.store[i].Artist = st.store[i].Artist ∧
         st1.store[i].title = st.store[i].title ∧
         st1.store[i].cover = st.store[i].cover ∧
         st1.store[i].playlistId = st.store[i].playlistId ∧
         st1.store[i].youtubeid = st.store[i].youtubeid) ∧
        (lastFetchFor songs st.store[i].youtubeid = none →
          st1.store[i] = st.store[i]) ∧
        (∀ s, lastFetchFor songs st.store[i].youtubeid = some s →
          (fetchYouTubeStats (env s.youtubeid).extractor).map Prod.snd =
            some ⟨st1.store[i].views, st1.store[i].likes⟩ ∧
          st.clock ≤ st1.store[i].updatedAt) := by
  intro songs
  induction songs with
  | nil =>
    intro st st1 h
    simp only [runLoop, TickResult.ok.injEq] at h
    subst h
    refine ⟨le_refl _, rfl, ?_⟩
    intro i hi hi1
    refine ⟨⟨rfl, rfl, rfl, rfl, rfl, rfl⟩, fun _ => rfl, ?_⟩
    intro s hs
    rw [lastFetchFor_nil] at hs
    cases hs
  | cons song rest ih =>
    intro st st1 h
    obtain ⟨stMid, hp, hrest⟩ := runLoop_ok_step env song rest st st1 h
    obtain ⟨d, stats, hf, hsf, hMid⟩ := processSong_ok_inv env song st stMid hp
    subst hMid
    obtain ⟨ihclock, ihlen, ihrow⟩ := ih _ st1 hrest
    have hstep : st.clock ≤ st.clock + d + COOLDOWN_MS := by omega
    refine ⟨le_trans hstep ihclock, ?_, ?_⟩
    · rw [ihlen]
      exact updateSongMetrics_length _ _ _ _
    · intro i hi hi1
      have hiMid : i < (updateSongMetrics st.store song.youtubeid stats
          (st.clock + d)).length := by
        rw [updateSongMetrics_length]; exact hi
      obtain ⟨hframe, hnone, hsome⟩ := ihrow i hiMid hi1
      have hrow := updateSongMetrics_getElem st.store song.youtubeid stats
        (st.clock + d) i hi hiMid
      by_cases hy : st.store[i].youtubeid = song.youtubeid
      · -- the head song rewrites this row
        rw [if_pos hy] at hrow
        rw [hrow] at hframe hnone hsome
        refine ⟨hframe, ?_, ?_⟩
        · intro h0
          rw [lastFetchFor_cons] at h0
          cases hr : lastFetchFor rest st.store[i].youtubeid with
          | some s2 => rw [hr] at h0; cases h0
          | none =>
            rw [hr] at h0
            rw [if_pos (by simpa using hy.symm)] at h0
            cases h0
        · intro s h0
          rw [lastFetchFor_cons] at h0
          cases hr : lastFetchFor rest st.store[i].youtubeid with
          | some s2 =>
            rw [hr] at h0
            cases h0
            have := hsome s (by simpa using hr)
            exact ⟨this.1, le_trans hstep this.2⟩
          | none =>
            rw [hr] at h0
            rw [if_pos (by simpa using hy.symm)] at h0
            cases h0
            have hfix := hnone (by simpa using hr)
            rw [hfix]
            refine ⟨?_, ?_⟩
            · rw [hf]
              rfl
            · show st.clock ≤ st.clock + d
              omega
      · -- this row is untouched by the head song
        rw [if_neg hy] at hrow
        rw [hrow] at hframe hnone hsome
        refine ⟨hframe, ?_, ?_⟩
        · intro h0
          rw [lastFetchFor_cons] at h0
          cases hr : lastFetchFor rest st.store[i].youtubeid with
          | some s2 => rw [hr] at h0; cases h0
          | none => exact hnone hr
        · intro s h0
          rw [lastFetchFor_cons] at h0
          cases hr : lastFetchFor rest st.store[i].youtubeid with
          | some s2 =>
            rw [hr] at h0
            cases h0
            have := hsome s hr
            exact ⟨this.1, le_trans hstep this.2⟩
          | none =>
            rw [hr] at h0
            rw [if_neg (by simpa using fun he => hy (by simpa using he.symm))] at h0
            cases h0

/-! Claim theorems. -/

/-- C1 counterexample: the code does not use the literal sentinel
`{views: "unknown", likes: "unknown"}`.  A concrete failing fetch writes the
object `{views: "N/A", likes: "N/A"}` to both the cache and the durable
store, and that object differs from the one the claim names. -/
theorem fetch_failure_sentinel_not_unknown :
    runLoop failEnv [failSong] failState = .ok failFinal ∧
    cacheGet failFinal.cache ("ytstats:" ++ failSong.youtubeid) = some sentinelStats ∧
    failFinal.store =
      [{ failSong with views := sentinel, likes := sentinel, updatedAt := 700000 }] ∧
    sentinelStats ≠ ⟨"unknown", "unknown"⟩ := by
  refine ⟨rfl, rfl, rfl, by decide⟩

/-- C1 (amended): for every song whose extractor fetch fails, the
synchronizer produces the sentinel result `{views: "N/A", likes: "N/A"}`
instead of raising, writes it to both the ephemeral cache and the durable
store, and the loop proceeds to the next song. -/
theorem fetch_failure_writes_sentinel (env : String → SongEnv) (song : SongRow)
    (rest : List SongRow) (st : SyncState) (d : Nat)
    (hfail : (env song.youtubeid).extractor = .failure d)
    (hwrite : (env song.youtubeid).storageFails = false) :
    ∃ st1 : SyncState,
      runLoop env (song :: rest) st = runLoop env rest st1 ∧
      cacheGet st1.cache ("ytstats:" ++ song.youtubeid) = some sentinelStats ∧
      ∀ r ∈ st1.store, r.youtubeid = song.youtubeid →
        r.views = sentinel ∧ r.likes = sentinel := by
  have hp : processSong env song st = some (.ok { st with
      clock := st.clock + d + COOLDOWN_MS,
      cache := redisSet st.cache ("ytstats:" ++ song.youtubeid) sentinelStats 60 (st.clock + d),
      store := updateSongMetrics st.store song.youtubeid sentinelStats (st.clock + d),
      log := st.log ++ ["Updated stats for " ++ song.youtubeid] }) := by
    unfold processSong
    rw [hfail]
    simp [fetchYouTubeStats, hwrite]
  refine ⟨{ st with
      clock := st.clock + d + COOLDOWN_MS,
      cache := redisSet st.cache ("ytstats:" ++ song.youtubeid) sentinelStats 60 (st.clock + d),
      store := updateSongMetrics st.store song.youtubeid sentinelStats (st.clock + d),
      log := st.log ++ ["Updated stats for " ++ song.youtubeid] }, ?_, ?_, ?_⟩
  · rw [runLoop_cons, hp]
  · exact cacheGet_redisSet_self _ _ _ _ _
  · intro r hr hy
    obtain ⟨r0, hr0, hfr⟩ := List.mem_map.mp hr
    by_cases h0 : r0.youtubeid = song.youtubeid
    · rw [if_pos h0] at hfr
      rw [← hfr]
      exact ⟨rfl, rfl⟩
    · rw [if_neg h0] at hfr
      rw [← hfr] at hy
      exact absurd hy h0

/-- C1 witness: the amended claim instantiated at the concrete failing
scenario. -/
theorem fetch_failure_writes_sentinel_witness :
    ∃ st1 : SyncState,
      runLoop failEnv (failSong :: []) failState = runLoop failEnv [] st1 ∧
      cacheGet st1.cache ("ytstats:" ++ failSong.youtubeid) = some sentinelStats ∧
      ∀ r ∈ st1.store, r.youtubeid = failSong.youtubeid →
        r.views = sentinel ∧ r.likes = sentinel :=
  fetch_failure_writes_sentinel failEnv failSong [] failState 0 rfl rfl

/-- C2: the selection step never returns the stale Song records.  The
identifier `Op` used in the where-clause `{updatedAt: {[Op.lt]: cutoff}}` is
not bound anywhere in src/index.js, so building the where-clause raises
`ReferenceError: Op is not defined` on every tick; the outer catch logs the
failure, and the tick completes having read and written nothing. -/
theorem tick_aborts_unresolved_op (env : String → SongEnv) (st : SyncState) :
    findStaleSongs st.store (staleCutoff st.clock) = .error "Op is not defined" ∧
    updateAllStatsInBackground env st =
      .ok { st with log := st.log ++ ["Background stats update failed: Op is not defined"] } :=
  ⟨rfl, rfl⟩

/-- C3: within one tick the loop suspends for the fixed 30-second cooldown
after every processed song, so a completed loop over N songs advances the
wall clock by at least (N-1) cooldowns. -/
theorem tick_pacing_lower_bound (env : String → SongEnv) (songs : List SongRow)
    (st st1 : SyncState) (hok : runLoop env songs st = .ok st1) :
    st.clock + (songs.length - 1) * COOLDOWN_MS ≤ st1.clock ∧
    ∀ (song : SongRow) (st0 stN : SyncState),
      processSong env song st0 = some (.ok stN) →
      st0.clock + COOLDOWN_MS ≤ stN.clock := by
  constructor
  · have h := runLoop_ok_clock env songs st st1 hok
    have hle : (songs.length - 1) * COOLDOWN_MS ≤ songs.length * COOLDOWN_MS :=
      Nat.mul_le_mul_right _ (Nat.sub_le _ _)
    omega
  · intro song st0 stN hp
    obtain ⟨d, stats, hf, hsf, hN⟩ := processSong_ok_inv env song st0 stN hp
    rw [hN]
    show st0.clock + COOLDOWN_MS ≤ st0.clock + d + COOLDOWN_MS
    omega

/-- C3 witness: the pacing bound instantiated at the concrete one-song
tick. -/
theorem tick_pacing_lower_bound_witness :
    demoState.clock + ([demoSong].length - 1) * COOLDOWN_MS ≤ demoFinal.clock ∧
    ∀ (song : SongRow) (st0 stN : SyncState),
      processSong demoEnv song st0 = some (.ok stN) →
      st0.clock + COOLDOWN_MS ≤ stN.clock :=
  tick_pacing_lower_bound demoEnv [demoSong] demoState demoFinal rfl

/-- C4 counterexample: with two stale songs where the first song's durable
write throws, the loop escapes with the exception; the tick-level catch logs
it and the second song is never processed in that tick (no cache entry is
written for it and the durable store is untouched), contradicting
"continues to the next song in the same tick". -/
theorem storage_error_abort_counterexample :
    runLoop c4Env [songA, songB] c4State = .err c4Mid "StorageError" ∧
    catchTick (runLoop c4Env [songA, songB] c4State) =
      .ok { c4Mid with log := ["Background stats update failed: StorageError"] } ∧
    cacheGet c4Mid.cache ("ytstats:" ++ songB.youtubeid) = none ∧
    c4Mid.store = c4State.store :=
  ⟨rfl, rfl, rfl, rfl⟩

/-- C4 (amended): when the durable write for one song fails, the exception
escapes the per-song loop; the tick-level catch logs the failure and the
tick resolves without crashing the process, but the remainder of the tick is
aborted — the durable store is left as it was and the following songs wait
for a later tick. -/
theorem storage_error_aborts_tick (env : String → SongEnv) (song : SongRow)
    (rest : List SongRow) (st : SyncState) (d : Nat) (m : Metadata)
    (hsucc : (env song.youtubeid).extractor = .success d m)
    (hfail : (env song.youtubeid).storageFails = true) :
    ∃ st1 : SyncState,
      runLoop env (song :: rest) st = .err st1 "StorageError" ∧
      st1.store = st.store ∧ st1.log = st.log ∧
      catchTick (runLoop env (song :: rest) st) =
        .ok { st1 with log := st1.log ++ ["Background stats update failed: StorageError"] } := by
  have hp : processSong env song st = some (.error ({ st with
      clock := st.clock + d,
      cache := redisSet st.cache ("ytstats:" ++ song.youtubeid) (fetchedStats m) 60 (st.clock + d) },
      "StorageError")) := by
    unfold processSong
    rw [hsucc]
    simp [fetchYouTubeStats, hfail]
  refine ⟨{ st with
      clock := st.clock + d,
      cache := redisSet st.cache ("ytstats:" ++ song.youtubeid) (fetchedStats m) 60 (st.clock + d) },
    ?_, rfl, rfl, ?_⟩
  · rw [runLoop_cons, hp]
  · rw [runLoop_cons, hp]
    rfl

/-- C4 witness: the amended claim instantiated at the concrete two-song
scenario. -/
theorem storage_error_aborts_tick_witness :
    ∃ st1 : SyncState,
      runLoop c4Env (songA :: [songB]) c4State = .err st1 "StorageError" ∧
      st1.store = c4State.store ∧ st1.log = c4State.log ∧
      catchTick (runLoop c4Env (songA :: [songB]) c4State) =
        .ok { st1 with log := st1.log ++ ["Background stats update failed: StorageError"] } :=
  storage_error_aborts_tick c4Env songA [songB] c4State 0 ⟨some 1, some 1⟩ rfl rfl

/-- C5: the extractor invocation made by the synchronizer is not bounded by
any timeout.  The option object passed to youtube-dl-exec carries no timeout
field, and when the extractor never responds the awaited call never
resolves — there is no finite bound after which a sentinel is produced. -/
theorem extractor_call_unbounded :
    fetchYouTubeStatsFlags.timeout = none ∧ fetchYouTubeStats .hang = none :=
  ⟨rfl, rfl⟩

/-- C6 counterexample: an absent field is replaced by the code's sentinel
`"N/A"`, not by the literal `"unknown"` the claim names (the present field
0 is still rendered as `"0"`). -/
theorem absent_field_sentinel_not_unknown :
    fetchedStats ⟨some 0, none⟩ = ⟨"0", sentinel⟩ ∧ sentinel ≠ "unknown" :=
  ⟨rfl, by decide⟩

/-- C6 (amended): on a successful fetch the two counts are coerced
independently of each other; a present field — the numeric value 0
included — becomes its textual decimal representation and an absent field
becomes the sentinel `"N/A"`, which is distinct from the representation of
zero. -/
theorem metric_coercion_matches_spec (vc lc : Option Nat) :
    fetchedStats ⟨vc, lc⟩ = ⟨specCoerce vc, specCoerce lc⟩ ∧
    (∀ n : Nat, specCoerce (some n) = Nat.repr n) ∧
    specCoerce none = sentinel ∧
    sentinel ≠ Nat.repr 0 := by
  refine ⟨?_, fun n => rfl, rfl, by decide⟩
  unfold fetchedStats specCoerce jsOrDefault jsToStringOpt
  cases vc <;> cases lc <;> simp [natRepr_ne_empty]

/-- C7: a completed tick loop over the selected stale songs changes only the
views/likes/updatedAt fields of rows matched by a selected song's
external-media identifier; every other row survives verbatim, all non-metric
fields of every row are unchanged, and every row matched by a selected stale
song ends the tick with its last-updated timestamp refreshed to no earlier
than the tick's start. -/
theorem tick_frame_and_refresh (env : String → SongEnv) (st st1 : SyncState)
    (hok : runLoop env (tickSelection st) st = .ok st1) :
    st1.store.length = st.store.length ∧
    ∀ (i : Nat) (hi : i < st.store.length) (hi1 : i < st1.store.length),
      (st1.store[i].id = st.store[i].id ∧
       st1.store[i].Artist = st.store[i].Artist ∧
       st1.store[i].title = st.store[i].title ∧
       st1.store[i].cover = st.store[i].cover ∧
       st1.store[i].playlistId = st.store[i].playlistId ∧
       st1.store[i].youtubeid = st.store[i].youtubeid) ∧
      ((∀ song ∈ tickSelection st, song.youtubeid ≠ st.store[i].youtubeid) →
        st1.store[i] = st.store[i]) ∧
      (∀ song ∈ tickSelection st, song.youtubeid = st.store[i].youtubeid →
        st.clock ≤ st1.store[i].updatedAt) := by
  obtain ⟨hclock, hlen, hrow⟩ := runLoop_ok_rows env (tickSelection st) st st1 hok
  refine ⟨hlen, ?_⟩
  intro i hi hi1
  obtain ⟨hframe, hnone, hsome⟩ := hrow i hi hi1
  refine ⟨hframe, ?_, ?_⟩
  · intro hno
    exact hnone (lastFetchFor_eq_none _ _ hno)
  · intro song hmem hyid
    obtain ⟨s, hs⟩ := lastFetchFor_isSome (tickSelection st) _ song hmem hyid
    exact (hsome s hs).2

/-- C7 witness: the frame-and-refresh theorem instantiated at the concrete
one-song tick. -/
theorem tick_frame_and_refresh_witness :
    demoFinal.store.length = demoState.store.length ∧
    ∀ (i : Nat) (hi : i < demoState.store.length) (hi1 : i < demoFinal.store.length),
      (demoFinal.store[i].id = demoState.store[i].id ∧
       demoFinal.store[i].Artist = demoState.store[i].Artist ∧
       demoFinal.store[i].title = demoState.store[i].title ∧
       demoFinal.store[i].cover = demoState.store[i].cover ∧
       demoFinal.store[i].playlistId = demoState.store[i].playlistId ∧
       demoFinal.store[i].youtubeid = demoState.store[i].youtubeid) ∧
      ((∀ song ∈ tickSelection demoState, song.youtubeid ≠ demoState.store[i].youtubeid) →
        demoFinal.store[i] = demoState.store[i]) ∧
      (∀ song ∈ tickSelection demoState, song.youtubeid = demoState.store[i].youtubeid →
        demoState.clock ≤ demoFinal.store[i].updatedAt) :=
  tick_frame_and_refresh demoEnv demoState demoFinal rfl

/-- C8: running the loop twice in succession over the same stale set, with
the extractor behaving identically both times, leaves the same durable
views/likes values after each run — the writes overwrite, they do not
accumulate. -/
theorem tick_idempotent_metrics (env : String → SongEnv) (songs : List SongRow)
    (st st1 st2 : SyncState)
    (h1 : runLoop env songs st = .ok st1)
    (h2 : runLoop env songs st1 = .ok st2) :
    st2.store.length = st1.store.length ∧
    ∀ (i : Nat) (hi1 : i < st1.store.length) (hi2 : i < st2.store.length),
      st2.store[i].views = st1.store[i].views ∧
      st2.store[i].likes = st1.store[i].likes := by
  obtain ⟨hc1, hlen1, hrow1⟩ := runLoop_ok_rows env songs st st1 h1
  obtain ⟨hc2, hlen2, hrow2⟩ := runLoop_ok_rows env songs st1 st2 h2
  refine ⟨hlen2, ?_⟩
  intro i hi1 hi2
  have hi0 : i < st.store.length := by rw [← hlen1]; exact hi1
  obtain ⟨hframe1, hnone1, hsome1⟩ := hrow1 i hi0 hi1
  obtain ⟨hframe2, hnone2, hsome2⟩ := hrow2 i hi1 hi2
  have hyid : st1.store[i].youtubeid = st.store[i].youtubeid := hframe1.2.2.2.2.2
  cases hl : lastFetchFor songs st.store[i].youtubeid with
  | none =>
    have heq := hnone2 (by rw [hyid]; exact hl)
    rw [heq]
    exact ⟨rfl, rfl⟩
  | some s =>
    have e1 := (hsome1 s hl).1
    have e2 := (hsome2 s (by rw [hyid]; exact hl)).1
    rw [e1] at e2
    injection e2 with e3
    exact ⟨congrArg Stats.views e3.symm, congrArg Stats.likes e3.symm⟩

/-- C8 witness: idempotence instantiated at the concrete song run twice. -/
theorem tick_idempotent_metrics_witness :
    demoFinal2.store.length = demoFinal.store.length ∧
    ∀ (i : Nat) (hi1 : i < demoFinal.store.length) (hi2 : i < demoFinal2.store.length),
      demoFinal2.store[i].views = demoFinal.store[i].views ∧
      demoFinal2.store[i].likes = demoFinal.store[i].likes :=
  tick_idempotent_metrics demoEnv [demoSong] demoState demoFinal demoFinal2 rfl rfl

/-- C9: whenever the fetch for a song resolves — with real metrics or with
the sentinel — the per-song step writes the result to the ephemeral cache
under `ytstats:<youtubeid>` with a 60-second expiry, whether or not the
subsequent durable write throws. -/
theorem cache_write_unconditional (env : String → SongEnv) (song : SongRow)
    (st : SyncState) (d : Nat) (stats : Stats)
    (hfetch : fetchYouTubeStats (env song.youtubeid).extractor = some (d, stats)) :
    ∃ st1 : SyncState,
      (processSong env song st = some (.ok st1) ∨
       processSong env song st = some (.error (st1, "StorageError"))) ∧
      cacheGet st1.cache ("ytstats:" ++ song.youtubeid) = some stats ∧
      cacheExpiry st1.cache ("ytstats:" ++ song.youtubeid) =
        some (st.clock + d + 60 * 1000) := by
  by_cases hs : (env song.youtubeid).storageFails = true
  · refine ⟨{ st with
      clock := st.clock + d,
      cache := redisSet st.cache ("ytstats:" ++ song.youtubeid) stats 60 (st.clock + d) },
      Or.inr ?_, ?_, ?_⟩
    · unfold processSong
      rw [hfetch]
      simp [hs]
    · exact cacheGet_redisSet_self _ _ _ _ _
    · exact cacheExpiry_redisSet_self _ _ _ _ _
  · have hs2 : (env song.youtubeid).storageFails = false := by simpa using hs
    refine ⟨{ st with
      clock := st.clock + d + COOLDOWN_MS,
      cache := redisSet st.cache ("ytstats:" ++ song.youtubeid) stats 60 (st.clock + d),
      store := updateSongMetrics st.store song.youtubeid stats (st.clock + d),
      log := st.log ++ ["Updated stats for " ++ song.youtubeid] },
      Or.inl ?_, ?_, ?_⟩
    · unfold processSong
      rw [hfetch]
      simp [hs2]
    · exact cacheGet_redisSet_self _ _ _ _ _
    · exact cacheExpiry_redisSet_self _ _ _ _ _

/-- C9 witness: the unconditional cache write instantiated at the concrete
successful fetch. -/
theorem cache_write_unconditional_witness :
    ∃ st1 : SyncState,
      (processSong demoEnv demoSong demoState = some (.ok st1) ∨
       processSong demoEnv demoSong demoState = some (.error (st1, "StorageError"))) ∧
      cacheGet st1.cache ("ytstats:" ++ demoSong.youtubeid) = some ⟨"150", "12"⟩ ∧
      cacheExpiry st1.cache ("ytstats:" ++ demoSong.youtubeid) =
        some (demoState.clock + 0 + 60 * 1000) :=
  cache_write_unconditional demoEnv demoSong demoState 0 ⟨"150", "12"⟩ rfl

/-- C10: the cooldown is executed after every song, the last one of the tick
included, so a completed loop over N songs advances the wall clock by at
least N times the cooldown duration even when every fetch is instantaneous. -/
theorem cooldown_after_last_song (env : String → SongEnv) (songs : List SongRow)
    (st st1 : SyncState) (hok : runLoop env songs st = .ok st1) :
    st.clock + songs.length * COOLDOWN_MS ≤ st1.clock :=
  runLoop_ok_clock env songs st st1 hok

/-- C10 witness: the N-cooldown bound instantiated at the concrete one-song
tick. -/
theorem cooldown_after_last_song_witness :
    demoState.clock + [demoSong].length * COOLDOWN_MS ≤ demoFinal.clock :=
  cooldown_after_last_song demoEnv [demoSong] demoState demoFinal rfl

end NekoSync
